import Mathlib

/-!
Verification of the Robokitchen track recording/playback engine.

This file shallowly embeds the core of the repository
(`demo/V2/manage/terminal_v2.py`, `demo/V2/manage/track.py`,
`demo/V2/manage/arm_ipc.py`, `demo/V2/manage/terminal_v3.py`) in Lean 4
and proves / refutes the specification claims about it.

Modelling conventions:
* A Python `list` of joint values becomes `List ℤ`; a pose is a 7-element list
  (6 joint angles in 0.001 degree plus the gripper opening).
* Python floats are modelled as exact rationals `ℚ`; `int(x)` (truncation
  toward zero) becomes `pyInt`.
* Hardware side effects (JointCtrl / GripperCtrl / ModeCtrl / EnableArm and
  log warnings) are modelled as an explicit event trace `List Event`;
  timing sleeps do not affect the emitted trace and are elided.
* The arm's feedback is not computed by the model: wherever the source
  re-reads the current pose after a motion (`_current_point`), the reading
  is passed in as an explicit argument.
-/

namespace Robokitchen

/-- Python `int(x)` applied to a float: truncation toward zero. -/
def pyInt (q : ℚ) : ℤ := if 0 ≤ q then ⌊q⌋ else ⌈q⌉

/-- `IGNORED_JOINTS = [3, 5, 6]` from `terminal_v2.py`. -/
def IGNORED_JOINTS : List ℕ := [3, 5, 6]

/-- `TOLERANCE_ANGLE_UNITS = TOLERANCE_ANGLE_DEG * 1000 = 5000` from `terminal_v2.py`. -/
def TOLERANCE_ANGLE_UNITS : ℤ := 5000

/-- `GRIPPER_TIGHT_COEFFICEINT = 0.075` from `terminal_v2.py` (sic: source spelling). -/
def GRIPPER_TIGHT_COEFFICEINT : ℚ := 75 / 1000

/-- `GRIPPER_EFFORT = 5000` from `terminal_v2.py`. -/
def GRIPPER_EFFORT : ℤ := 5000

/-- Modelled from the spec: the line at `terminal_v2.py:462` — the update of
the running maximum inside `_max_delta_and_joint_ignored`'s
`for idx, d in enumerate(diffs)` loop — is redacted in the source (the line
holds only `/////`); per the spec's contract ("reports both the maximum
deviation and which joint produced it") it is `max_delta = d`, set together
with `worst_joint = idx`.  Everything else follows the source: the
accumulator starts at `max_delta = -1`, `worst_joint = None`; indices in
`IGNORED_JOINTS` are skipped; the update fires on the strict `d > max_delta`
comparison. -/
def maxDeltaLoop : ℕ → List ℤ → ℤ → Option ℕ → ℤ × Option ℕ
  | _, [], m, w => (m, w)
  | idx, d :: rest, m, w =>
      if idx ∈ IGNORED_JOINTS then maxDeltaLoop (idx + 1) rest m w
      else if d > m then maxDeltaLoop (idx + 1) rest d (some idx)
      else maxDeltaLoop (idx + 1) rest m w

/-- `_max_delta_and_joint_ignored(pt_a, pt_b)` from `terminal_v2.py:452-464`:
absolute per-joint differences, maximum over indices not in `IGNORED_JOINTS`,
returning `(max_delta, worst_joint)` with `worst_joint = -1` when never set. -/
def maxDeltaAndJointIgnored (ptA ptB : List ℤ) : ℤ × ℤ :=
  let diffs := (ptA.zip ptB).map fun p => |p.1 - p.2|
  let r := maxDeltaLoop 0 diffs (-1) none
  (r.1, match r.2 with
        | some j => (j : ℤ)
        | none => -1)

/-- `_is_close_ignored(pt_a, pt_b, tol)` from `terminal_v2.py:1149-1152`. -/
def isCloseIgnored (ptA ptB : List ℤ) (tol : ℤ := TOLERANCE_ANGLE_UNITS) : Bool :=
  decide ((maxDeltaAndJointIgnored ptA ptB).1 ≤ tol)

/-- `_is_close_strict(pt_a, pt_b, tol, gripper_tol)` from `terminal_v2.py:1131-1147`:
all motor joints (`pt[:-1]`) within `tol`, gripper (`pt[-1]`) within
`gripper_tol` (defaulting to `tol`). -/
def isCloseStrict (ptA ptB : List ℤ) (tol : ℤ := TOLERANCE_ANGLE_UNITS)
    (gripperTol : Option ℤ := none) : Bool :=
  let motorsA := ptA.dropLast
  let gripperA := ptA.getLastD 0
  let motorsB := ptB.dropLast
  let gripperB := ptB.getLastD 0
  let gtol := gripperTol.getD tol
  ((motorsA.zip motorsB).all fun p => decide (|p.1 - p.2| ≤ tol)) &&
    decide (|gripperA - gripperB| ≤ gtol)

/-- One observable hardware/log action emitted by the playback engine. -/
inductive Event
  | jointCtrl (joints : List ℤ)
  | gripperCtrl (angle : ℤ)
  | enableArm (mask : ℕ)
  | modeCtrl (ctrlMode moveMode : ℕ)
  | warnEmptyTrack
  deriving DecidableEq, Repr

/-- `_effective_target(pt)` from `terminal_v2.py:1296-1304`: a copy of `pt`
with the gripper (index 6) tightened to
`int(pt[6] * (1 - GRIPPER_TIGHT_COEFFICEINT))` when the coefficient is
positive. -/
def effectiveTarget (pt : List ℤ) : List ℤ :=
  if 0 < GRIPPER_TIGHT_COEFFICEINT then
    pt.set 6 (pyInt ((pt.getD 6 0 : ℚ) * (1 - GRIPPER_TIGHT_COEFFICEINT)))
  else pt

/-- `_send_point(arm, pt)` from `terminal_v2.py:960-963`: applies
`_effective_target` and issues `JointCtrl(*eff[:6])` followed by
`GripperCtrl(eff[6], GRIPPER_EFFORT, 0x01, 0)`. -/
def sendPointCmds (pt : List ℤ) : List Event :=
  [Event.jointCtrl ((effectiveTarget pt).take 6),
   Event.gripperCtrl ((effectiveTarget pt).getD 6 0)]

/-- `_prepare_track_play(arm)` from `terminal_v2.py:973-977`:
`EnableArm(7)` then `ModeCtrl(ctrl_mode=0x01, move_mode=0x01, ...)`. -/
def prepareTrackPlayCmds : List Event :=
  [Event.enableArm 7, Event.modeCtrl 1 1]

/-- The sequence of raw points sent by `_move_smooth(arm, target_pt, steps, hz)`
(`terminal_v2.py:321-342`): with `diffs = [(t - c) / steps ...]`, the loop
sends `[int(c + d * i) ...]` for `i = 0, 1, ..., steps - 1`. -/
def moveSmoothSends (curr target : List ℤ) (steps : ℕ := 100) :
    List (List ℤ) :=
  (List.range steps).map fun (i : ℕ) =>
    (curr.zip target).map fun ct =>
      pyInt ((ct.1 : ℚ) + ((ct.2 : ℚ) - (ct.1 : ℚ)) / (steps : ℚ) * (i : ℚ))

/-- Outcome of `_move_smooth`: after the glide the arm's pose is re-read
(`_current_point`, modelled as the explicit argument `after`) and compared to
the target with `_is_close_strict`; `ok=False` with error
`'not close to target_pt'` otherwise. -/
def moveSmoothOk (after target : List ℤ) : Bool :=
  isCloseStrict after target

/-- Per-segment interpolation of `_run_timed_track` (`terminal_v2.py:1496-1533`)
for one consecutive pair of control points: `dur` is the already-scaled
`durations[idx] * (1 - speed_up)`, `steps = max(1, int(dur * hz))`,
`diffs[i] = (end_pt[i] - start_pt[i]) / steps`, and for
`step = 1, ..., steps` the point `[int(start_pt[i] + diffs[i] * step) for i in
range(7)]` is sent. -/
def segmentSends (startPt endPt : List ℤ) (dur : ℚ) (hz : ℕ) :
    List (List ℤ) :=
  let steps : ℤ := max 1 (pyInt (dur * (hz : ℚ)))
  (List.range steps.toNat).map fun (k : ℕ) =>
    (List.range 7).map fun (i : ℕ) =>
      pyInt ((startPt.getD i 0 : ℚ) +
        ((endPt.getD i 0 : ℚ) - (startPt.getD i 0 : ℚ)) / (steps : ℚ) *
          ((k : ℚ) + 1))

/-- `TrackV3Timed.speed_up` from `track.py:305-346`: hard-coded per-track
speed-up fractions, defaulting to `0`. -/
def speedUp (name : String) : ℚ :=
  if name = "left__open_door" then 0
  else if name = "left__lopatka1" then 15 / 100
  else if name = "right__open_door" then 30 / 100
  else if name = "right__meat" then 20 / 100
  else if name = "right__tomat" then 47 / 100
  else if name = "right__salt" then 20 / 100
  else if name = "right__lapsha" then 30 / 100
  else if name = "right__cheese" then 15 / 100
  else if name = "right__close_door" then 10 / 100
  else if name = "left__close_door" then 25 / 100
  else if name = "left__colba1" then 30 / 100
  else if name = "left__lopatka2_open" then 60 / 100
  else if name = "left__lopatka2_mix" then 60 / 100
  else if name = "left__lopatka2_close" then 60 / 100
  else if name = "left__lopatka2_open_faster" then 60 / 100
  else if name = "left__lopatka2_mix_faster" then 60 / 100
  else if name = "left__lopatka2_close_faster" then 60 / 100
  else if name = "left__colba_suhtrav" then 0
  else if name = "left__colba_svezhtrav" then 0
  else 0

/-- Raw points sent by the main loop of `_run_timed_track` for a track with at
least two control points: `for idx in range(1, len(points))`, the segment from
`points[idx-1]` to `points[idx]` uses
`dur = durations[idx] * (1 - speed_up)`. -/
def runTimedTrackSends (pts : List (List ℤ)) (durs : List ℚ) (su : ℚ)
    (hz : ℕ) : List (List ℤ) :=
  (List.range (pts.length - 1)).flatMap fun j =>
    segmentSends (pts.getD j []) (pts.getD (j + 1) [])
      ((durs.getD (j + 1) 0) * (1 - su)) hz

/-- Full event trace of `_run_timed_track(arm, trk_obj, hz)`
(`terminal_v2.py:1476-1540`), with the stop flag clear and the external pause
file inactive throughout (those only gate timing, not the emitted commands):
an empty track logs a warning and returns; a one-point track prepares the arm,
runs `_move_smooth` to the single point and disengages
(`ModeCtrl(0x00, 0x00)`); otherwise each consecutive segment is interpolated
and the arm is disengaged at the end. -/
def runTimedTrackEvents (curr : List ℤ) (pts : List (List ℤ))
    (durs : List ℚ) (su : ℚ) (hz : ℕ := 50) : List Event :=
  if pts.length = 0 then [Event.warnEmptyTrack]
  else if pts.length = 1 then
    prepareTrackPlayCmds ++
      (moveSmoothSends curr (pts.getD 0 []) 100).flatMap sendPointCmds ++
      [Event.modeCtrl 0 0]
  else
    prepareTrackPlayCmds ++
      (runTimedTrackSends pts durs su hz).flatMap sendPointCmds ++
      [Event.modeCtrl 0 0]

/-- Raw points sent by `_run_track(arm, data, details, hz)`
(`terminal_v2.py:979-1094`) with the stop flag clear: each `TrackPoint`'s
coordinates are sent once, in order (the timestamp wait only delays, never
drops or reorders). -/
def runTrackSends (data : List (List ℤ)) : List (List ℤ) := data

/-- Full event trace of `_run_track` under the same no-stop, no-pause
conditions. -/
def runTrackEvents (data : List (List ℤ)) : List Event :=
  prepareTrackPlayCmds ++ (runTrackSends data).flatMap sendPointCmds ++
    [Event.modeCtrl 0 0]

/-- Full event trace of `_move_smooth`'s sending loop. -/
def moveSmoothEvents (curr target : List ℤ) (steps : ℕ := 100) : List Event :=
  (moveSmoothSends curr target steps).flatMap sendPointCmds

/-- Raw points sent by `_run_timed_track`, branch by branch (empty, single
point via `_move_smooth`, or segment interpolation). -/
def timedTrackRawSends (curr : List ℤ) (pts : List (List ℤ))
    (durs : List ℚ) (su : ℚ) (hz : ℕ := 50) : List (List ℤ) :=
  if pts.length = 0 then []
  else if pts.length = 1 then moveSmoothSends curr (pts.getD 0 []) 100
  else runTimedTrackSends pts durs su hz

/-- Result type mirroring `PiperResponse(ok=..., error=...)`. -/
structure PiperResponse where
  ok : Bool
  error : Option String := none
  deriving DecidableEq, Repr

/-- `_maybe_reset_from_safe_pose_and_move_to_0` (`terminal_v2.py:345-420`):
with the hard-fail branch disabled in the source, the call fails only when no
zero-track files exist (`'no 0 tracks'`); otherwise it reports the nearest
safe point and returns `ok=True`. -/
def maybeResetFromSafePose (zeroTracksExist : Bool) : PiperResponse :=
  if zeroTracksExist then { ok := true }
  else { ok := false, error := some "no 0 tracks" }

/-- Modelled from the spec: `_safe_move_smooth(arm, target, steps)` is called
by `cmd_play`, `cmd_play_parallel` and `cmd_play_v2` but is not defined in the
repository sources; per spec section 4.5 it executes the smooth linear glide
(the `_move_smooth` loop, default 100 steps at 50 Hz) from the current pose to
the target and reports success only when the glide converged within the
strict tolerance (`_is_close_strict` against the re-read pose `after`). -/
def safeMoveSmooth (curr after target : List ℤ) (steps : ℕ := 100) :
    (List (List ℤ)) × Bool :=
  (moveSmoothSends curr target steps, moveSmoothOk after target)

/-- Trace of one `cmd_play` invocation (`terminal_v2.py:816-874`) up to and
including dense playback of a single track, with the stop flag clear:
`glideSends` are the points issued by the glide-to-start (empty when the arm
is already close), `trackSends` the dense trajectory points, and `aborted`
records an early `return`. -/
structure PlayTrace where
  glideSends : List (List ℤ)
  trackSends : List (List ℤ)
  aborted : Bool
  deriving DecidableEq, Repr

/-- `cmd_play(track)` pre-flight and playback (`terminal_v2.py:816-874`) for a
single track: run the safe-pose check; load the track and compare the current
pose to its first point with `_is_close_ignored`; when not close, run
`_safe_move_smooth` with the default 100 steps and abort unless it converged;
only then issue the dense trajectory via `_run_track`.  `curr` is the pose
read before the glide and `after` the pose re-read by `_move_smooth`'s
convergence check. -/
def cmdPlaySingle (zeroTracksExist : Bool) (curr after : List ℤ)
    (trackPts : List (List ℤ)) : PlayTrace :=
  if !(maybeResetFromSafePose zeroTracksExist).ok then
    { glideSends := [], trackSends := [], aborted := true }
  else
    let first := trackPts.getD 0 []
    if isCloseIgnored curr first then
      { glideSends := [], trackSends := runTrackSends trackPts,
        aborted := false }
    else
      let glide := safeMoveSmooth curr after first 100
      if glide.2 then
        { glideSends := glide.1, trackSends := runTrackSends trackPts,
          aborted := false }
      else
        { glideSends := glide.1, trackSends := [], aborted := true }

/-- The polling loop of `_current_point(arm)` (`terminal_v2.py:1097-1129`),
iteration by iteration.  `readings k` is the pose returned by the hardware on
the `k`-th poll (one poll per ~5 ms).  The loop returns the first reading with
any non-zero component; when the 100 ms deadline has passed it only emits a
rate-limited warning and keeps polling — there is no `return` in the deadline
branch.  `currentPointRun readings i fuel` runs at most `fuel` further
iterations starting from poll index `i` and yields `some pt` if the loop
returned within them. -/
def currentPointRun (readings : ℕ → List ℤ) : ℕ → ℕ → Option (List ℤ)
  | _, 0 => none
  | i, fuel + 1 =>
      let pt := readings i
      if pt.any (· ≠ 0) then some pt
      else currentPointRun readings (i + 1) fuel

/-- Python `str.startswith(p)` on strings modelled as character lists. -/
def strStartsWith : List Char → List Char → Bool
  | _, [] => true
  | [], _ :: _ => false
  | c :: cs, p :: ps => c == p && strStartsWith cs ps

/-- `PiperTerminalV3._canon_name(name)` from `terminal_v3.py:461-475`:
short-prefix canonicalisation; `name[k:]` is `List.drop k` on the character
list.  Note the `left_` branch has no `not name.startswith("left__")` guard,
unlike the `right_` and `scene_` branches. -/
def canonName (name : List Char) : List Char :=
  if strStartsWith name "l_".toList then "left__".toList ++ name.drop 2
  else if strStartsWith name "left_".toList then "left__".toList ++ name.drop 5
  else if strStartsWith name "r_".toList then "right__".toList ++ name.drop 2
  else if strStartsWith name "right_".toList &&
      !(strStartsWith name "right__".toList) then
    "right__".toList ++ name.drop 6
  else if strStartsWith name "scene_".toList &&
      !(strStartsWith name "scene__".toList) then
    "scene__".toList ++ name.drop 6
  else name

/-- A parsed JSON document (`json.loads` output) as used by the track files. -/
inductive Json where
  | null
  | bool (b : Bool)
  | num (q : ℚ)
  | str (s : String)
  | arr (items : List Json)
  | obj (fields : List (String × Json))

/-- Python `dict.get(key)`: the value stored under `key`, or `None`. -/
def jsonGet : List (String × Json) → String → Option Json
  | [], _ => none
  | (k, v) :: rest, key => if k = key then some v else jsonGet rest key

/-- `isinstance(obj, dict) and obj.get("version") == v`: true only when the
document is a mapping whose version field is exactly the string `v`. -/
def versionIs (doc : Json) (v : String) : Bool :=
  match doc with
  | .obj fields =>
      match jsonGet fields "version" with
      | some (.str s) => s == v
      | _ => false
  | _ => false

/-- The track variant instantiated by `TrackBase.read_track`, carrying the
parsed document. -/
inductive TrackVariant where
  | v1 (data : Json)
  | v2 (raw : Json)
  | v3 (raw : Json)

/-- One entry of a v3 `points` list is valid when it is a mapping containing
both `pt` and `duration` (`track.py:301-303`). -/
def v3EntryValid (j : Json) : Bool :=
  match j with
  | .obj f => (jsonGet f "pt").isSome && (jsonGet f "duration").isSome
  | _ => false

/-- `TrackV3Timed.__init__` validation (`track.py:291-303`): `points`
(defaulting to `[]` when absent) must be a list whose entries each contain
`pt` and `duration`. -/
def v3Validate (doc : Json) : Except String Unit :=
  match doc with
  | .obj fields =>
      match jsonGet fields "points" with
      | none => .ok ()
      | some (.arr items) =>
          if items.all v3EntryValid then .ok ()
          else .error "Each point entry must contain pt and duration"
      | some _ => .error "'points' must be a list in v3 track"
  | _ => .error "not an object"

/-- `TrackBase.read_track` dispatch (`track.py:92-111`) on an
already-parsed document: a mapping whose `version` equals `"v3.0"` becomes
`TrackV3Timed` (whose constructor re-validates the points); a mapping whose
`version` equals `"v2.0"` becomes `TrackV2` (whose constructor performs no
further validation); anything else falls back to the legacy `TrackV1`, whose
constructor only re-parses the JSON and never fails on a parsed document. -/
def read_track (doc : Json) : Except String TrackVariant :=
  if versionIs doc "v3.0" then
    match v3Validate doc with
    | .ok _ => .ok (.v3 doc)
    | .error e => .error e
  else if versionIs doc "v2.0" then .ok (.v2 doc)
  else .ok (.v1 doc)

/-- One entry of a `<name>.details.json` sidecar, with the telemetry bundle
read by `TrackV1.track_points` (`track.py:154-171`); entries are modelled as
fully-populated telemetry records (the source additionally raises when the
`ts` key is absent from a dict entry). -/
structure Detail where
  ts : ℚ
  motor_speed_rpm : List ℤ
  motor_current_ma : List ℤ
  voltage_mv : List ℤ
  motor_pos_deg001 : List ℤ
  motor_effort_mNm : List ℤ
  foc_temp_c : List ℤ
  motor_temp_c : List ℤ
  bus_current_ma : List ℤ

/-- `TrackPoint` dataclass from `track.py:26-44`. -/
structure TrackPoint where
  coordinates_timestamp : ℚ
  coordinates : List ℤ
  details_timestamp : ℚ
  motor_speed_rpm : List ℤ
  motor_current_ma : List ℤ
  voltage_mv : List ℤ
  motor_pos_deg001 : List ℤ
  motor_effort_mNm : List ℤ
  foc_temp_c : List ℤ
  motor_temp_c : List ℤ
  bus_current_ma : List ℤ

/-- `TrackBase.details` (`track.py:76-84`): the parsed sidecar file, or the
empty list when the file is missing (or unreadable). -/
def detailsProp (detailsFile : Option (List Detail)) : List Detail :=
  detailsFile.getD []

/-- `TrackV1.track_points` (`track.py:144-173`): fatal integrity check
`len(details) != len(self._data)`, then one `TrackPoint` per pose combining
`self._data[idx]` with `details[idx]`. -/
def v1TrackPoints (data : List (List ℤ)) (detailsFile : Option (List Detail)) :
    Except String (List TrackPoint) :=
  let details := detailsProp detailsFile
  if details.length ≠ data.length then
    .error "Details length must match points length for v1 track"
  else
    .ok ((data.zip details).map fun pd =>
      { coordinates_timestamp := pd.2.ts
        coordinates := pd.1
        details_timestamp := pd.2.ts
        motor_speed_rpm := pd.2.motor_speed_rpm
        motor_current_ma := pd.2.motor_current_ma
        voltage_mv := pd.2.voltage_mv
        motor_pos_deg001 := pd.2.motor_pos_deg001
        motor_effort_mNm := pd.2.motor_effort_mNm
        foc_temp_c := pd.2.foc_temp_c
        motor_temp_c := pd.2.motor_temp_c
        bus_current_ma := pd.2.bus_current_ma })

/-- A `{cmd: "call", method, args, id}` request of the inter-process channel
(`arm_ipc.py:162-171`); `args` are opaque payload values. -/
structure CallMsg (α : Type) where
  method : String
  args : List α
  id : ℕ

/-- A `{ok, result|error, id}` reply (`arm_ipc.py:111-120`). -/
structure WorkerReply (β : Type) where
  ok : Bool
  result : Option β := none
  error : Option String := none
  id : ℕ

/-- `_ArmWorkerProcess.run`'s handling of one `"call"` message
(`arm_ipc.py:104-120`): the delegated method (`exec`, modelling
`getattr(term, method_name)(*args)`) either returns a result — replied with
`ok=True` — or raises, in which case the exception is captured and replied as
`ok=False` with its description; both replies carry the request's `id`. -/
def workerHandleCall {α β : Type} (exec : String → List α → Except String β)
    (m : CallMsg α) : WorkerReply β :=
  match exec m.method m.args with
  | .ok v => { ok := true, result := some v, id := m.id }
  | .error e => { ok := false, error := some e, id := m.id }

/-- The worker's message loop over a finite inbox: every `"call"` message is
answered in order; an exception inside one call never terminates the loop
(`arm_ipc.py:88-122`). -/
def workerRun {α β : Type} (exec : String → List α → Except String β)
    (msgs : List (CallMsg α)) : List (WorkerReply β) :=
  msgs.map (workerHandleCall exec)

/-- Outcome of `ArmProxy._send_call` after the reply is received. -/
inductive ProxyOutcome (β : Type) where
  | result (r : Option β)
  | workerError (e : Option String)
  | protocolError

/-- `ArmProxy._send_call` (`arm_ipc.py:162-177`): the proxy increments its
correlation counter (`self._req_id += 1`), tags the request with the fresh id,
and blocks for `reply`; a reply with a different id raises the fatal
`"out-of-order IPC reply"` error, a reply with `ok` yields `result`, and any
other reply raises a worker error carrying the propagated description.
Returns the new counter state and the outcome. -/
def proxySendCall {β : Type} (reqIdState : ℕ) (reply : WorkerReply β) :
    ℕ × ProxyOutcome β :=
  let currId := reqIdState + 1
  (currId,
    if reply.id ≠ currId then .protocolError
    else if reply.ok then .result reply.result
    else .workerError reply.error)

end Robokitchen

namespace Robokitchen

/-- Result of the index-scanning loop on the seven per-joint differences,
assuming all differences are nonnegative: the final maximum is the maximum
over the non-ignored indices `{0,1,2,4}`, and the reported joint is the first
index attaining it. -/
lemma maxDeltaLoop_seven (d0 d1 d2 d3 d4 d5 d6 : ℤ)
    (h0 : 0 ≤ d0) (_h1 : 0 ≤ d1) (_h2 : 0 ≤ d2) (_h4 : 0 ≤ d4) :
    let r := maxDeltaLoop 0 [d0, d1, d2, d3, d4, d5, d6] (-1) none
    (r.1 = max (max (max d0 d1) d2) d4) ∧
    ((r.2 = some 0 ∧ r.1 = d0) ∨
     (r.2 = some 1 ∧ r.1 = d1 ∧ d0 < r.1) ∨
     (r.2 = some 2 ∧ r.1 = d2 ∧ d0 < r.1 ∧ d1 < r.1) ∨
     (r.2 = some 4 ∧ r.1 = d4 ∧ d0 < r.1 ∧ d1 < r.1 ∧ d2 < r.1)) := by
  simp only [maxDeltaLoop, IGNORED_JOINTS]
  norm_num
  split_ifs <;> simp_all <;> omega

/-- C2.  `_max_delta_and_joint_ignored` on two 7-element poses returns the
maximum of the per-joint absolute differences over the non-ignored indices
`{0,1,2,4}` together with the first (lowest) index attaining that maximum;
in particular on identical poses the returned deviation is `0`. -/
theorem maxDeltaAndJointIgnored_spec
    (a0 a1 a2 a3 a4 a5 a6 b0 b1 b2 b3 b4 b5 b6 : ℤ) :
    (maxDeltaAndJointIgnored [a0, a1, a2, a3, a4, a5, a6]
        [b0, b1, b2, b3, b4, b5, b6]).1 =
      max (max (max |a0 - b0| |a1 - b1|) |a2 - b2|) |a4 - b4| ∧
    ((maxDeltaAndJointIgnored [a0, a1, a2, a3, a4, a5, a6]
        [b0, b1, b2, b3, b4, b5, b6]).2 = 0 ∧
      (maxDeltaAndJointIgnored [a0, a1, a2, a3, a4, a5, a6]
        [b0, b1, b2, b3, b4, b5, b6]).1 = |a0 - b0| ∨
     (maxDeltaAndJointIgnored [a0, a1, a2, a3, a4, a5, a6]
        [b0, b1, b2, b3, b4, b5, b6]).2 = 1 ∧
      (maxDeltaAndJointIgnored [a0, a1, a2, a3, a4, a5, a6]
        [b0, b1, b2, b3, b4, b5, b6]).1 = |a1 - b1| ∧
      |a0 - b0| < (maxDeltaAndJointIgnored [a0, a1, a2, a3, a4, a5, a6]
        [b0, b1, b2, b3, b4, b5, b6]).1 ∨
     (maxDeltaAndJointIgnored [a0, a1, a2, a3, a4, a5, a6]
        [b0, b1, b2, b3, b4, b5, b6]).2 = 2 ∧
      (maxDeltaAndJointIgnored [a0, a1, a2, a3, a4, a5, a6]
        [b0, b1, b2, b3, b4, b5, b6]).1 = |a2 - b2| ∧
      |a0 - b0| < (maxDeltaAndJointIgnored [a0, a1, a2, a3, a4, a5, a6]
        [b0, b1, b2, b3, b4, b5, b6]).1 ∧
      |a1 - b1| < (maxDeltaAndJointIgnored [a0, a1, a2, a3, a4, a5, a6]
        [b0, b1, b2, b3, b4, b5, b6]).1 ∨
     (maxDeltaAndJointIgnored [a0, a1, a2, a3, a4, a5, a6]
        [b0, b1, b2, b3, b4, b5, b6]).2 = 4 ∧
      (maxDeltaAndJointIgnored [a0, a1, a2, a3, a4, a5, a6]
        [b0, b1, b2, b3, b4, b5, b6]).1 = |a4 - b4| ∧
      |a0 - b0| < (maxDeltaAndJointIgnored [a0, a1, a2, a3, a4, a5, a6]
        [b0, b1, b2, b3, b4, b5, b6]).1 ∧
      |a1 - b1| < (maxDeltaAndJointIgnored [a0, a1, a2, a3, a4, a5, a6]
        [b0, b1, b2, b3, b4, b5, b6]).1 ∧
      |a2 - b2| < (maxDeltaAndJointIgnored [a0, a1, a2, a3, a4, a5, a6]
        [b0, b1, b2, b3, b4, b5, b6]).1) ∧
    (maxDeltaAndJointIgnored [a0, a1, a2, a3, a4, a5, a6]
      [a0, a1, a2, a3, a4, a5, a6]).1 = 0 := by
  have key := maxDeltaLoop_seven |a0 - b0| |a1 - b1| |a2 - b2| |a3 - b3|
    |a4 - b4| |a5 - b5| |a6 - b6| (abs_nonneg _) (abs_nonneg _) (abs_nonneg _)
    (abs_nonneg _)
  have keySelf := maxDeltaLoop_seven 0 0 0 0 0 0 0 le_rfl le_rfl le_rfl le_rfl
  simp only at key keySelf
  obtain ⟨hmax, hcase⟩ := key
  obtain ⟨hmaxSelf, _⟩ := keySelf
  simp only [maxDeltaAndJointIgnored, List.zip, List.zipWith, List.map]
  refine ⟨hmax, ?_, by simpa using hmaxSelf⟩
  rcases hcase with ⟨hw, hm⟩ | ⟨hw, hm, h⟩ | ⟨hw, hm, h, h'⟩ |
    ⟨hw, hm, h, h', h''⟩
  · exact Or.inl ⟨by rw [hw]; norm_num, hm⟩
  · exact Or.inr (Or.inl ⟨by rw [hw]; norm_num, hm, h⟩)
  · exact Or.inr (Or.inr (Or.inl ⟨by rw [hw]; norm_num, hm, h, h'⟩))
  · exact Or.inr (Or.inr (Or.inr ⟨by rw [hw]; norm_num, hm, h, h', h''⟩))

/-- Reading back index 6 after `List.set 6` (out-of-range set is a no-op and
an out-of-range read defaults to `0`, matching a zero product). -/
lemma effectiveTarget_gripper (pt : List ℤ) :
    (effectiveTarget pt).getD 6 0 =
      pyInt ((pt.getD 6 0 : ℚ) * (1 - GRIPPER_TIGHT_COEFFICEINT)) := by
  unfold effectiveTarget
  rw [if_pos (by norm_num [GRIPPER_TIGHT_COEFFICEINT])]
  by_cases h : 6 < pt.length
  · simp [List.getD, List.getElem?_set, h]
  · have hset : pt.set 6 (pyInt ((pt.getD 6 0 : ℚ) *
        (1 - GRIPPER_TIGHT_COEFFICEINT))) = pt := by
      apply List.set_eq_of_length_le
      omega
    rw [hset]
    have : pt.getD 6 0 = 0 := by
      simp [List.getD, List.getElem?_eq_none (by omega : pt.length ≤ 6)]
    rw [this]
    simp [pyInt]

/-- Every gripper command in a trace assembled from raw points via
`_send_point` is the tightened value of one of the raw points. -/
lemma gripper_of_flatMap_sendPoint (raws : List (List ℤ)) (g : ℤ)
    (h : Event.gripperCtrl g ∈ raws.flatMap sendPointCmds) :
    ∃ pt ∈ raws,
      g = pyInt ((pt.getD 6 0 : ℚ) * (1 - GRIPPER_TIGHT_COEFFICEINT)) := by
  rw [List.mem_flatMap] at h
  obtain ⟨pt, hpt, hmem⟩ := h
  refine ⟨pt, hpt, ?_⟩
  simp only [sendPointCmds, List.mem_cons, List.mem_singleton,
    List.not_mem_nil, or_false] at hmem
  rcases hmem with h1 | h2
  · cases h1
  · cases h2
    exact effectiveTarget_gripper pt

/-- A gripper command inside a `prepare ++ sends ++ disengage` trace must come
from the middle block of `_send_point` commands. -/
lemma gripper_mem_middle (raws : List (List ℤ)) (g : ℤ)
    (h : Event.gripperCtrl g ∈
      prepareTrackPlayCmds ++ raws.flatMap sendPointCmds ++
        [Event.modeCtrl 0 0]) :
    Event.gripperCtrl g ∈ raws.flatMap sendPointCmds := by
  rcases List.mem_append.mp h with h' | h'
  · rcases List.mem_append.mp h' with h'' | h''
    · simp [prepareTrackPlayCmds] at h''
    · exact h''
  · exact absurd (List.mem_singleton.mp h') (by simp)

/-- C8.  Every outgoing gripper command (hardware `GripperCtrl`) emitted during
timed playback, dense playback or a smooth move carries the recorded gripper
value (index 6) scaled by the tightening fraction:
`int(value * (1 - GRIPPER_TIGHT_COEFFICEINT))` with the coefficient `0.075`. -/
theorem gripper_tightening_applied :
    GRIPPER_TIGHT_COEFFICEINT = 75 / 1000 ∧
    (∀ pt : List ℤ, (effectiveTarget pt).getD 6 0 =
      pyInt ((pt.getD 6 0 : ℚ) * (1 - GRIPPER_TIGHT_COEFFICEINT))) ∧
    (∀ (curr : List ℤ) (pts : List (List ℤ)) (durs : List ℚ) (su : ℚ)
      (hz : ℕ) (g : ℤ),
      Event.gripperCtrl g ∈ runTimedTrackEvents curr pts durs su hz →
      ∃ pt ∈ timedTrackRawSends curr pts durs su hz,
        g = pyInt ((pt.getD 6 0 : ℚ) * (1 - GRIPPER_TIGHT_COEFFICEINT))) ∧
    (∀ (data : List (List ℤ)) (g : ℤ),
      Event.gripperCtrl g ∈ runTrackEvents data →
      ∃ pt ∈ runTrackSends data,
        g = pyInt ((pt.getD 6 0 : ℚ) * (1 - GRIPPER_TIGHT_COEFFICEINT))) ∧
    (∀ (curr target : List ℤ) (steps : ℕ) (g : ℤ),
      Event.gripperCtrl g ∈ moveSmoothEvents curr target steps →
      ∃ pt ∈ moveSmoothSends curr target steps,
        g = pyInt ((pt.getD 6 0 : ℚ) * (1 - GRIPPER_TIGHT_COEFFICEINT))) := by
  refine ⟨rfl, effectiveTarget_gripper, ?_, ?_, ?_⟩
  · intro curr pts durs su hz g h
    unfold runTimedTrackEvents at h
    unfold timedTrackRawSends
    split_ifs at h ⊢ with h0 h1
    · exact absurd (List.mem_singleton.mp h) (by simp)
    · exact gripper_of_flatMap_sendPoint _ _ (gripper_mem_middle _ _ h)
    · exact gripper_of_flatMap_sendPoint _ _ (gripper_mem_middle _ _ h)
  · intro data g h
    exact gripper_of_flatMap_sendPoint _ _ (gripper_mem_middle _ _ h)
  · intro curr target steps g h
    exact gripper_of_flatMap_sendPoint _ _ h

/-- Witness for C8 at a concrete two-point timed track: the single emitted
gripper command is `int(100 * (1 - 0.075)) = 92`. -/
theorem gripper_tightening_applied_witness :
    Event.gripperCtrl 92 ∈ runTimedTrackEvents [0, 0, 0, 0, 0, 0, 0]
      [[0, 0, 0, 0, 0, 0, 0], [0, 0, 0, 0, 0, 0, 100]] [0, 1/50] 0 50 ∧
    ∃ pt ∈ timedTrackRawSends [0, 0, 0, 0, 0, 0, 0]
      [[0, 0, 0, 0, 0, 0, 0], [0, 0, 0, 0, 0, 0, 100]] [0, 1/50] 0 50,
      (92 : ℤ) = pyInt ((pt.getD 6 0 : ℚ) * (1 - GRIPPER_TIGHT_COEFFICEINT)) := by
  have hmem : Event.gripperCtrl 92 ∈ runTimedTrackEvents [0, 0, 0, 0, 0, 0, 0]
      [[0, 0, 0, 0, 0, 0, 0], [0, 0, 0, 0, 0, 0, 100]] [0, 1/50] 0 50 := by
    norm_num [runTimedTrackEvents, runTimedTrackSends, segmentSends,
      sendPointCmds, effectiveTarget, prepareTrackPlayCmds, pyInt,
      GRIPPER_TIGHT_COEFFICEINT, List.range_succ]
  exact ⟨hmem, gripper_tightening_applied.2.2.1 _ _ _ _ _ _ hmem⟩

/-- Truncation toward zero of an integer is that integer. -/
lemma pyInt_intCast (n : ℤ) : pyInt (n : ℚ) = n := by
  unfold pyInt
  split_ifs <;> simp

/-- On nonnegative arguments Python truncation agrees with the floor. -/
lemma pyInt_of_nonneg {q : ℚ} (h : 0 ≤ q) : pyInt q = ⌊q⌋ := if_pos h

/-- C7.  `_run_timed_track` on a zero-point track emits only the empty-track
warning (no motion commands at all); on a one-point track it prepares the arm,
executes the 100-step `_move_smooth` glide to the single point, and stops by
disengaging the motion mode (`ModeCtrl(0x00, 0x00)` as the final action). -/
theorem runTimedTrack_small_tracks (curr p : List ℤ) (durs : List ℚ)
    (su : ℚ) (hz : ℕ) :
    (runTimedTrackEvents curr [] durs su hz = [Event.warnEmptyTrack]) ∧
    (runTimedTrackEvents curr [p] durs su hz =
      prepareTrackPlayCmds ++ moveSmoothEvents curr p 100 ++
        [Event.modeCtrl 0 0]) ∧
    ((runTimedTrackEvents curr [p] durs su hz).getLast? =
      some (Event.modeCtrl 0 0)) ∧
    ((moveSmoothSends curr p 100).length = 100) := by
  refine ⟨rfl, rfl, ?_,
    by simp only [moveSmoothSends, List.length_map, List.length_range]⟩
  show (prepareTrackPlayCmds ++
    (moveSmoothSends curr ([p].getD 0 []) 100).flatMap sendPointCmds ++
    [Event.modeCtrl 0 0]).getLast? = some (Event.modeCtrl 0 0)
  rw [List.getLast?_concat]

/-- C1.  Sparse (timed) playback of a segment between two 7-element control
points with stored duration `d`: the number of interpolation steps is
`max(1, floor(d * (1 - speed_up) * hz))` at `hz = 50`; each of the 7 pose
components of the `k`-th emitted point is the truncated linear interpolant
`int(start + (end - start) * (k+1) / steps)`; and the pose emitted at the
final step equals the target control point exactly.  The first conjunct ties
the per-segment function to the `_run_timed_track` loop on a two-point track
(`durations[1]` is the target point's duration; `durations[0]` is unused). -/
theorem sparse_segment_interpolation
    (s0 s1 s2 s3 s4 s5 s6 e0 e1 e2 e3 e4 e5 e6 : ℤ) (d d0 su : ℚ)
    (hd : 0 ≤ d) (_hsu0 : 0 ≤ su) (hsu1 : su ≤ 1) :
    runTimedTrackSends [[s0, s1, s2, s3, s4, s5, s6],
        [e0, e1, e2, e3, e4, e5, e6]] [d0, d] su 50 =
      segmentSends [s0, s1, s2, s3, s4, s5, s6] [e0, e1, e2, e3, e4, e5, e6]
        (d * (1 - su)) 50 ∧
    ((segmentSends [s0, s1, s2, s3, s4, s5, s6] [e0, e1, e2, e3, e4, e5, e6]
        (d * (1 - su)) 50).length : ℤ) = max 1 ⌊d * (1 - su) * 50⌋ ∧
    (∀ k : ℕ, k < (segmentSends [s0, s1, s2, s3, s4, s5, s6]
        [e0, e1, e2, e3, e4, e5, e6] (d * (1 - su)) 50).length →
      (segmentSends [s0, s1, s2, s3, s4, s5, s6] [e0, e1, e2, e3, e4, e5, e6]
          (d * (1 - su)) 50).getD k [] =
        (List.range 7).map fun (i : ℕ) =>
          pyInt ((([s0, s1, s2, s3, s4, s5, s6] : List ℤ).getD i 0 : ℚ) +
            ((([e0, e1, e2, e3, e4, e5, e6] : List ℤ).getD i 0 : ℚ) -
              (([s0, s1, s2, s3, s4, s5, s6] : List ℤ).getD i 0 : ℚ)) *
              ((k : ℚ) + 1) /
              ((max 1 ⌊d * (1 - su) * 50⌋ : ℤ) : ℚ))) ∧
    (segmentSends [s0, s1, s2, s3, s4, s5, s6] [e0, e1, e2, e3, e4, e5, e6]
        (d * (1 - su)) 50).getLast? =
      some [e0, e1, e2, e3, e4, e5, e6] := by
  set s : List ℤ := [s0, s1, s2, s3, s4, s5, s6] with hs
  set e : List ℤ := [e0, e1, e2, e3, e4, e5, e6] with he
  set sends : List (List ℤ) := segmentSends s e (d * (1 - su)) 50 with hsd
  set steps : ℤ := max 1 ⌊d * (1 - su) * 50⌋ with hst
  have harg : (0:ℚ) ≤ d * (1 - su) * ((50:ℕ) : ℚ) := by
    have h1 : (0:ℚ) ≤ 1 - su := by linarith
    positivity
  have hfl : pyInt (d * (1 - su) * ((50:ℕ) : ℚ)) = ⌊d * (1 - su) * 50⌋ := by
    rw [pyInt_of_nonneg harg]
    norm_num
  have hsteps1 : (1:ℤ) ≤ steps := le_max_left _ _
  have hsteps0 : (0:ℤ) ≤ steps := by omega
  have hne : ((steps : ℤ) : ℚ) ≠ 0 := by
    have : (0:ℚ) < ((steps : ℤ) : ℚ) := by exact_mod_cast (by omega : (0:ℤ) < steps)
    linarith
  have hunfold : sends = (List.range steps.toNat).map fun (k : ℕ) =>
      (List.range 7).map fun (i : ℕ) =>
        pyInt ((s.getD i 0 : ℚ) +
          ((e.getD i 0 : ℚ) - (s.getD i 0 : ℚ)) / (steps : ℚ) *
            ((k : ℚ) + 1)) := by
    show segmentSends s e (d * (1 - su)) 50 = _
    unfold segmentSends
    rw [hfl]
  have hlen : sends.length = steps.toNat := by
    rw [hunfold, List.length_map, List.length_range]
  refine ⟨?_, ?_, ?_, ?_⟩
  · unfold runTimedTrackSends
    rw [show ([s, e] : List (List ℤ)).length - 1 = 1 from rfl,
      show List.range 1 = [0] from rfl]
    simp only [List.flatMap_cons, List.flatMap_nil, List.append_nil]
    rfl
  · rw [hlen, Int.toNat_of_nonneg hsteps0]
  · intro k hk
    rw [hlen] at hk
    rw [hunfold, List.getD_eq_getElem?_getD, List.getElem?_map,
      List.getElem?_range hk]
    simp only [Option.map_some', Option.getD_some]
    apply List.map_congr_left
    intro i _
    congr 1
    ring
  · rw [hunfold, List.getLast?_eq_getElem?]
    have hlen2 : ((List.range steps.toNat).map fun (k : ℕ) =>
        (List.range 7).map fun (i : ℕ) =>
          pyInt ((s.getD i 0 : ℚ) +
            ((e.getD i 0 : ℚ) - (s.getD i 0 : ℚ)) / (steps : ℚ) *
              ((k : ℚ) + 1))).length = steps.toNat := by
      rw [List.length_map, List.length_range]
    rw [hlen2]
    have hn1 : 1 ≤ steps.toNat := by omega
    have hlt : steps.toNat - 1 < steps.toNat := by omega
    rw [List.getElem?_map, List.getElem?_range hlt]
    simp only [Option.map_some']
    congr 1
    have hcast : ((steps.toNat - 1 : ℕ) : ℚ) + 1 = ((steps : ℤ) : ℚ) := by
      have h4 : ((steps.toNat - 1 : ℕ) : ℤ) = steps - 1 := by omega
      calc ((steps.toNat - 1 : ℕ) : ℚ) + 1
          = (((steps.toNat - 1 : ℕ) : ℤ) : ℚ) + 1 := by push_cast; ring
        _ = ((steps - 1 : ℤ) : ℚ) + 1 := by rw [h4]
        _ = ((steps : ℤ) : ℚ) := by push_cast; ring
    have hval : ∀ a b : ℤ,
        pyInt ((a : ℚ) + ((b : ℚ) - (a : ℚ)) / (steps : ℚ) * (steps : ℚ)) =
          b := by
      intro a b
      rw [div_mul_cancel₀ _ hne, show (a:ℚ) + ((b:ℚ) - (a:ℚ)) = (b:ℚ) by ring]
      exact pyInt_intCast b
    rw [show List.range 7 = [0, 1, 2, 3, 4, 5, 6] from rfl]
    simp only [List.map, hcast, List.getD_cons_zero, List.getD_cons_succ]
    simp only [hval]
    rfl

/-- Witness for C1 at the spec's scenario: two control points with gripper
moving `0 → 50000`, duration `2.0`, `speed_up = 0.5`; the effective segment
has `50` steps and its final emitted pose equals the target exactly. -/
theorem sparse_segment_interpolation_witness :
    (0:ℚ) ≤ 2 ∧ (0:ℚ) ≤ 1/2 ∧ (1/2 : ℚ) ≤ 1 ∧
    ((segmentSends [0, 0, 0, 0, 0, 0, 0] [0, 0, 0, 0, 0, 0, 50000]
        (2 * (1 - 1/2)) 50).length : ℤ) = max 1 ⌊(2 : ℚ) * (1 - 1/2) * 50⌋ ∧
    max 1 ⌊(2 : ℚ) * (1 - 1/2) * 50⌋ = 50 ∧
    (segmentSends [0, 0, 0, 0, 0, 0, 0] [0, 0, 0, 0, 0, 0, 50000]
        (2 * (1 - 1/2)) 50).getLast? = some [0, 0, 0, 0, 0, 0, 50000] := by
  have h := sparse_segment_interpolation 0 0 0 0 0 0 0 0 0 0 0 0 0 50000
    2 0 (1/2) (by norm_num) (by norm_num) (by norm_num)
  exact ⟨by norm_num, by norm_num, by norm_num, h.2.1,
    by rw [show ((2:ℚ) * (1 - 1/2) * 50) = 50 by norm_num]; norm_num,
    h.2.2.2⟩

/-- C3.  Before dense playback, when the current pose is not within tolerance
of the track's first point, `cmd_play` executes the smooth linear glide
(default 100 steps) from the current pose to the first point; if the glide
fails the strict convergence check, playback is aborted with no trajectory
point issued; if it converges, the dense trajectory is played in full. -/
theorem cmdPlay_glide_gate (curr after : List ℤ) (trackPts : List (List ℤ))
    (hfar : isCloseIgnored curr (trackPts.getD 0 []) = false) :
    (moveSmoothOk after (trackPts.getD 0 []) = false →
      cmdPlaySingle true curr after trackPts =
        { glideSends := moveSmoothSends curr (trackPts.getD 0 []) 100,
          trackSends := [], aborted := true }) ∧
    (moveSmoothOk after (trackPts.getD 0 []) = true →
      cmdPlaySingle true curr after trackPts =
        { glideSends := moveSmoothSends curr (trackPts.getD 0 []) 100,
          trackSends := trackPts, aborted := false }) ∧
    ((moveSmoothSends curr (trackPts.getD 0 []) 100).length = 100) := by
  refine ⟨?_, ?_,
    by simp only [moveSmoothSends, List.length_map, List.length_range]⟩
  · intro hfail
    simp only [List.getD_eq_getElem?_getD] at hfar hfail
    simp [cmdPlaySingle, maybeResetFromSafePose, safeMoveSmooth, runTrackSends,
      hfar, hfail]
  · intro hok
    simp only [List.getD_eq_getElem?_getD] at hfar hok
    simp [cmdPlaySingle, maybeResetFromSafePose, safeMoveSmooth, runTrackSends,
      hfar, hok]

/-- Witness for C3: the arm at `[10000,0,0,0,0,0,0]` is not close to the
track start `[0,...,0]` (deviation 10000 > 5000), the glide does not converge
(the re-read pose is unchanged), and playback aborts with no trajectory point
issued. -/
theorem cmdPlay_glide_gate_witness :
    isCloseIgnored [10000, 0, 0, 0, 0, 0, 0]
      (([[0, 0, 0, 0, 0, 0, 0]] : List (List ℤ)).getD 0 []) = false ∧
    moveSmoothOk [10000, 0, 0, 0, 0, 0, 0]
      (([[0, 0, 0, 0, 0, 0, 0]] : List (List ℤ)).getD 0 []) = false ∧
    cmdPlaySingle true [10000, 0, 0, 0, 0, 0, 0] [10000, 0, 0, 0, 0, 0, 0]
      [[0, 0, 0, 0, 0, 0, 0]] =
      { glideSends :=
          moveSmoothSends [10000, 0, 0, 0, 0, 0, 0] [0, 0, 0, 0, 0, 0, 0] 100,
        trackSends := [], aborted := true } :=
  ⟨by decide, by decide,
    (cmdPlay_glide_gate [10000, 0, 0, 0, 0, 0, 0] [10000, 0, 0, 0, 0, 0, 0]
      [[0, 0, 0, 0, 0, 0, 0]] (by decide)).1 (by decide)⟩

/-- C4 (refutation).  When the hardware keeps reporting the all-zero pose,
`_current_point` never returns: for every number of loop iterations the run
has not produced a value, contradicting the claim (and the function's own
docstring) that after the 100 ms deadline the last all-zero reading is
returned.  Under the ~5 ms poll period, `fuel = 20` corresponds to the 100 ms
deadline and `fuel = 21` to the first poll past it. -/
theorem currentPoint_never_returns_on_zeros :
    ∀ (fuel i : ℕ),
      currentPointRun (fun _ => [0, 0, 0, 0, 0, 0, 0]) i fuel = none := by
  intro fuel
  induction fuel with
  | zero => intro i; rfl
  | succ n ih =>
      intro i
      show currentPointRun _ i (n + 1) = none
      unfold currentPointRun
      rw [if_neg (by decide)]
      exact ih (i + 1)

/-- The positive half of the accessor contract, which does hold: if the
reading at the first poll is not all-zero, the loop returns it immediately. -/
theorem currentPoint_returns_first_nonzero (readings : ℕ → List ℤ) (i : ℕ)
    (h : (readings i).any (· ≠ 0) = true) (fuel : ℕ) :
    currentPointRun readings i (fuel + 1) = some (readings i) := by
  unfold currentPointRun
  rw [if_pos h]

/-- Witness for the positive half at a concrete nonzero reading. -/
theorem currentPoint_returns_first_nonzero_witness :
    (([1, 0, 0, 0, 0, 0, 0] : List ℤ).any (· ≠ 0) = true) ∧
    currentPointRun (fun _ => [1, 0, 0, 0, 0, 0, 0]) 0 20 =
      some [1, 0, 0, 0, 0, 0, 0] :=
  ⟨by decide, currentPoint_returns_first_nonzero
    (fun _ => [1, 0, 0, 0, 0, 0, 0]) 0 (by decide) 19⟩

/-- C10 (refutation).  `_canon_name` is not idempotent and does not leave
already-canonical left names unchanged: `"left__wave"` matches the unguarded
`left_` branch and is mangled to `"left___wave"`, and a second application
mangles it further — whereas the corresponding right-hand name is stable, as
the claim expects. -/
theorem canonName_not_idempotent_on_left :
    canonName "left__wave".toList = "left___wave".toList ∧
    canonName (canonName "left__wave".toList) = "left____wave".toList ∧
    canonName "right__wave".toList = "right__wave".toList ∧
    canonName "l_wave".toList = "left__wave".toList := by
  refine ⟨?_, ?_, ?_, ?_⟩ <;> decide

/-- C5 (counterexample).  A stored mapping whose version field is present but
matches neither `"v3.0"` nor `"v2.0"` does NOT fail: `read_track` silently
coerces it to the legacy dense-untimed variant `TrackV1`. -/
theorem read_track_unknown_version_not_fatal :
    read_track (.obj [("version", .str "v9.9")]) =
      .ok (.v1 (.obj [("version", .str "v9.9")])) := rfl

/-- C5 (amended).  For every mapping whose version field holds any value other
than the strings `"v3.0"` and `"v2.0"`, `read_track` succeeds and returns the
legacy dense-untimed `TrackV1` variant: the unrecognized version tag is
silently coerced, never reported as an error. -/
theorem read_track_unknown_version_falls_back_to_v1
    (fields : List (String × Json)) (j : Json)
    (hget : jsonGet fields "version" = some j)
    (h3 : j ≠ .str "v3.0") (h2 : j ≠ .str "v2.0") :
    read_track (.obj fields) = .ok (.v1 (.obj fields)) := by
  have hv : ∀ v : String, j ≠ .str v → versionIs (.obj fields) v = false := by
    intro v hne
    show (match jsonGet fields "version" with
      | some (.str s) => s == v
      | _ => false) = false
    rw [hget]
    cases j with
    | str s =>
        have hs : s ≠ v := fun h => hne (by rw [h])
        simpa using hs
    | null => rfl
    | bool b => rfl
    | num q => rfl
    | arr items => rfl
    | obj f => rfl
  unfold read_track
  rw [hv _ h3, hv _ h2]
  rfl

/-- Witness for the amended C5 at the concrete unrecognized tag `"v9.9"`. -/
theorem read_track_unknown_version_falls_back_witness :
    jsonGet [("version", Json.str "v9.9")] "version" = some (.str "v9.9") ∧
    (Json.str "v9.9" ≠ .str "v3.0") ∧ (Json.str "v9.9" ≠ .str "v2.0") ∧
    read_track (.obj [("version", .str "v9.9")]) =
      .ok (.v1 (.obj [("version", .str "v9.9")])) :=
  ⟨rfl, by simp, by simp,
    read_track_unknown_version_falls_back_to_v1 [("version", .str "v9.9")]
      (.str "v9.9") rfl (by simp) (by simp)⟩

/-- C6 (counterexample).  A v1 track with zero poses and a missing details
file does NOT raise: the `details` property degrades to `[]`, the lengths
`0 = 0` match, and the `TrackPoint` sequence is the empty list — so "a
missing details file raises a load error" fails for the empty track. -/
theorem v1TrackPoints_empty_track_missing_details_ok :
    v1TrackPoints [] none = .ok [] := rfl

/-- C6 (amended).  For a dense-untimed (v1) track: a missing details file
raises the length-mismatch load error whenever the track has at least one
pose; a details list whose length differs from the pose count always raises
it; and with exactly matching lengths the accessor yields one `TrackPoint`
per pose, in order, carrying that pose as its coordinates. -/
theorem v1TrackPoints_length_gate (data : List (List ℤ)) :
    (data ≠ [] → v1TrackPoints data none =
      .error "Details length must match points length for v1 track") ∧
    (∀ l : List Detail, l.length ≠ data.length → v1TrackPoints data (some l) =
      .error "Details length must match points length for v1 track") ∧
    (∀ l : List Detail, l.length = data.length →
      ∃ tps : List TrackPoint, v1TrackPoints data (some l) = .ok tps ∧
        tps.length = data.length ∧
        tps.map (fun tp => tp.coordinates) = data) := by
  refine ⟨?_, ?_, ?_⟩
  · intro hne
    unfold v1TrackPoints detailsProp
    rw [if_pos]
    simpa using fun h => hne (List.eq_nil_of_length_eq_zero h.symm)
  · intro l hne
    unfold v1TrackPoints detailsProp
    rw [if_pos]
    simpa using hne
  · intro l heq
    unfold v1TrackPoints detailsProp
    rw [if_neg (by simpa using heq)]
    refine ⟨_, rfl, ?_, ?_⟩
    · rw [List.length_map, List.length_zip]
      simp only [Option.getD_some, heq, min_self]
    · rw [List.map_map]
      exact List.map_fst_zip data l (le_of_eq heq.symm)

/-- Witness for the amended C6 at the spec's scenario: a 3-pose track fails
with a missing details file and with a 2-entry details list, and loads 3
`TrackPoint`s with a matching 3-entry details list. -/
theorem v1TrackPoints_length_gate_witness :
    (([[1, 2, 3, 4, 5, 6, 7], [0, 0, 0, 0, 0, 0, 0], [9, 9, 9, 9, 9, 9, 9]] :
      List (List ℤ)) ≠ []) ∧
    v1TrackPoints [[1, 2, 3, 4, 5, 6, 7], [0, 0, 0, 0, 0, 0, 0],
      [9, 9, 9, 9, 9, 9, 9]] none =
      .error "Details length must match points length for v1 track" ∧
    ([(⟨0, [], [], [], [], [], [], [], []⟩ : Detail),
      ⟨0, [], [], [], [], [], [], [], []⟩].length ≠ 3) ∧
    v1TrackPoints [[1, 2, 3, 4, 5, 6, 7], [0, 0, 0, 0, 0, 0, 0],
      [9, 9, 9, 9, 9, 9, 9]]
      (some [⟨0, [], [], [], [], [], [], [], []⟩,
        ⟨0, [], [], [], [], [], [], [], []⟩]) =
      .error "Details length must match points length for v1 track" ∧
    ∃ tps : List TrackPoint,
      v1TrackPoints [[1, 2, 3, 4, 5, 6, 7], [0, 0, 0, 0, 0, 0, 0],
        [9, 9, 9, 9, 9, 9, 9]]
        (some [⟨0, [], [], [], [], [], [], [], []⟩,
          ⟨0, [], [], [], [], [], [], [], []⟩,
          ⟨0, [], [], [], [], [], [], [], []⟩]) = .ok tps ∧
      tps.length = 3 ∧
      tps.map (fun tp => tp.coordinates) =
        [[1, 2, 3, 4, 5, 6, 7], [0, 0, 0, 0, 0, 0, 0], [9, 9, 9, 9, 9, 9, 9]] := by
  refine ⟨by simp, ?_, by simp, ?_, ?_⟩
  · exact (v1TrackPoints_length_gate _).1 (by simp)
  · exact (v1TrackPoints_length_gate _).2.1 _ (by simp)
  · exact (v1TrackPoints_length_gate _).2.2 _ (by simp)

/-- C9.  The command channel: each call uses a fresh correlation id (the
incremented counter); a reply whose id differs from the request's id is a
fatal protocol error; a matching `ok=true` reply yields the worker's result;
an exception inside the worker is turned into a structured `ok=false` reply
carrying the same id; and the worker answers every message of its inbox in
order (it keeps serving after an error), with reply ids matching request
ids. -/
theorem ipc_correlation_and_error_propagation (α β : Type)
    (exec : String → List α → Except String β) :
    (∀ (st : ℕ) (r : WorkerReply β), (proxySendCall st r).1 = st + 1) ∧
    (∀ (st : ℕ) (r : WorkerReply β), r.id ≠ st + 1 →
      (proxySendCall st r).2 = .protocolError) ∧
    (∀ (st : ℕ) (r : WorkerReply β), r.id = st + 1 → r.ok = true →
      (proxySendCall st r).2 = .result r.result) ∧
    (∀ (m : CallMsg α) (e : String), exec m.method m.args = .error e →
      workerHandleCall exec m =
        { ok := false, error := some e, id := m.id }) ∧
    (∀ (m : CallMsg α) (v : β), exec m.method m.args = .ok v →
      workerHandleCall exec m =
        { ok := true, result := some v, id := m.id }) ∧
    (∀ msgs : List (CallMsg α),
      (workerRun exec msgs).length = msgs.length ∧
      (workerRun exec msgs).map (fun r => r.id) =
        msgs.map (fun m => m.id)) := by
  refine ⟨?_, ?_, ?_, ?_, ?_, ?_⟩
  · intro st r
    rfl
  · intro st r h
    show (if r.id ≠ st + 1 then _ else _) = _
    rw [if_pos h]
  · intro st r hid hok
    show (if r.id ≠ st + 1 then _ else _) = _
    rw [if_neg (by simpa using hid), if_pos hok]
  · intro m e h
    unfold workerHandleCall
    rw [h]
  · intro m v h
    unfold workerHandleCall
    rw [h]
  · intro msgs
    refine ⟨by rw [workerRun, List.length_map], ?_⟩
    rw [workerRun, List.map_map]
    apply List.map_congr_left
    intro m _
    show (workerHandleCall exec m).id = m.id
    unfold workerHandleCall
    cases exec m.method m.args <;> rfl

/-- Witness for C9 with a concrete executor that fails on method `"boom"` and
returns `7` otherwise: the matched `ok` reply yields the result, a mismatched
id is a protocol error, the failing call is answered as a structured error
with the same id, and the two-message inbox produces two replies. -/
theorem ipc_correlation_witness :
    (({ ok := true, result := some 7, id := 1 } : WorkerReply ℕ).id = 0 + 1) ∧
    (proxySendCall 0 ({ ok := true, result := some 7, id := 1 } :
      WorkerReply ℕ)).2 = .result (some 7) ∧
    (({ ok := true, result := some 7, id := 5 } : WorkerReply ℕ).id ≠ 0 + 1) ∧
    (proxySendCall 0 ({ ok := true, result := some 7, id := 5 } :
      WorkerReply ℕ)).2 = .protocolError ∧
    ((fun (m : String) (_ : List ℕ) =>
        if m = "boom" then (Except.error "ValueError" : Except String ℕ)
        else .ok 7) "boom" [] = .error "ValueError") ∧
    workerHandleCall (fun (m : String) (_ : List ℕ) =>
        if m = "boom" then (Except.error "ValueError" : Except String ℕ)
        else .ok 7) ⟨"boom", [], 3⟩ =
      { ok := false, error := some "ValueError", id := 3 } ∧
    (workerRun (fun (m : String) (_ : List ℕ) =>
        if m = "boom" then (Except.error "ValueError" : Except String ℕ)
        else .ok 7) [⟨"boom", [], 3⟩, ⟨"cmd_play", [], 4⟩]).map
      (fun r => r.id) = [3, 4] := by
  have h := ipc_correlation_and_error_propagation ℕ ℕ
    (fun (m : String) (_ : List ℕ) =>
      if m = "boom" then (Except.error "ValueError" : Except String ℕ)
      else .ok 7)
  refine ⟨rfl, ?_, by simp, ?_, by simp, ?_, ?_⟩
  · exact h.2.2.1 0 _ rfl rfl
  · exact h.2.1 0 _ (by simp)
  · exact h.2.2.2.1 ⟨"boom", [], 3⟩ "ValueError" (by simp)
  · rw [(h.2.2.2.2.2 [⟨"boom", [], 3⟩, ⟨"cmd_play", [], 4⟩]).2]
    rfl

end Robokitchen
